import Mathlib

/-!
Shallow embedding of `src/fulltext_to_markdown.py`, a CLI script that syncs a
Zotero collection, retrieves paper records with optional full text, and writes
one markdown file per qualifying record into an optional output directory.

External collaborators (the Zotero/OpenAlex clients, the tabular result set,
`sanitize_filename`) are opaque parameters.  The filesystem is modelled
explicitly: file contents as an association list (latest write first), directory
structure for `validate_args` as boolean oracles, per-path write failure
(`OSError` on `open`/`write`) as a boolean oracle.
-/

/-- Python `str.strip()` truthiness test uses this whitespace set (ASCII part). -/
def isSpaceChar (c : Char) : Bool :=
  c == ' ' || c == '\t' || c == '\n' || c == '\r' || c == '\x0b' || c == '\x0c'

/-- Python `s.strip()`: remove leading and trailing whitespace. -/
def pyStrip (s : String) : String :=
  String.mk (((s.data.dropWhile isSpaceChar).reverse.dropWhile isSpaceChar).reverse)

/-- A cell of the pandas row: either a Python `str` or some non-string value
(e.g. the NaN a missing fulltext column yields). -/
inductive CellValue where
  | str (s : String)
  | nonStr
deriving DecidableEq, Repr

/-- One row of `paper_library_df`: a title plus an optional `fulltext` cell
(`none` models the column being absent from the row). -/
structure Paper where
  title : String
  fulltext : Option CellValue
deriving DecidableEq, Repr

/-- Line 75: `'fulltext' in paper and isinstance(paper['fulltext'], str) and
paper['fulltext'].strip()`. -/
def hasFulltext (p : Paper) : Bool :=
  match p.fulltext with
  | some (CellValue.str s) => !(pyStrip s == "")
  | _ => false

/-- The string value of the `fulltext` cell (only used when `hasFulltext`). -/
def fulltextStr (p : Paper) : String :=
  match p.fulltext with
  | some (CellValue.str s) => s
  | _ => ""

/-- Line 77: `markdown_text = f"# {paper['title']}\n\n{fulltext}"`. -/
def markdownText (title fulltext : String) : String :=
  "# " ++ title ++ "\n\n" ++ fulltext

/-- Line 82: `file_path = Path(obsidian_directory) / f"{paper_title_sanitized}.md"`,
with `sanitize` standing for the external `sanitize_filename`. -/
def paperPath (sanitize : String → String) (dir title : String) : String :=
  dir ++ "/" ++ sanitize title ++ ".md"

/-- The mutable state of one `process_papers` run: file contents (latest write
first, lookup takes the first match), the chronological list of successful write
events, `processed_count`, and the titles warned about as lacking fulltext. -/
structure ExportState where
  fs : List (String × String)
  log : List (String × String)
  processedCount : Nat
  skipped : List String
deriving DecidableEq, Repr

/-- Content of the file at `path`: the most recent write wins. -/
def fsLookup (fs : List (String × String)) (path : String) : Option String :=
  (fs.find? (fun e => e.1 == path)).map (fun e => e.2)

/-- Fresh state over an initial file system. -/
def initState (fs0 : List (String × String)) : ExportState :=
  { fs := fs0, log := [], processedCount := 0, skipped := [] }

/-- Lines 74-95, one iteration of the `for paper_index, paper in ... .iterrows()`
loop.  `writeFails path = true` models `open`/`write` raising `OSError` for that
path; the `except OSError` branch only logs, so the state is unchanged.  A
`some ""` directory is falsy in Python (`if obsidian_directory:`), hence takes
the would-process branch just like `none`. -/
def processRecord (sanitize : String → String) (writeFails : String → Bool)
    (obsidianDirectory : Option String) (st : ExportState) (p : Paper) : ExportState :=
  if hasFulltext p then
    let md := markdownText p.title (fulltextStr p)
    match obsidianDirectory with
    | some dir =>
      if dir == "" then
        { st with processedCount := st.processedCount + 1 }
      else
        let path := paperPath sanitize dir p.title
        if writeFails path then
          st
        else
          { st with fs := (path, md) :: st.fs,
                    log := st.log ++ [(path, md)],
                    processedCount := st.processedCount + 1 }
    | none => { st with processedCount := st.processedCount + 1 }
  else
    { st with skipped := st.skipped ++ [p.title] }

/-- The whole record loop of `process_papers` (lines 73-95). -/
def exportPapers (sanitize : String → String) (writeFails : String → Bool)
    (obsidianDirectory : Option String) (papers : List Paper)
    (fs0 : List (String × String)) : ExportState :=
  papers.foldl (processRecord sanitize writeFails obsidianDirectory) (initState fs0)

/-- Outcome of `paper_library.sync_zotero_collection()` + `get_library_df()` as
observed by this script: either a result set, or some exception. -/
inductive SyncOutcome where
  | ok (papers : List Paper)
  | raises
deriving DecidableEq, Repr

/-- Result of `process_papers`: the final state and, when `sys.exit` ran, its
code. -/
structure ProcessResult where
  state : ExportState
  exited : Option Nat
deriving DecidableEq, Repr

/-- Lines 60-101, `process_papers(paper_library, obsidian_directory)`: any
exception from sync or retrieval hits the outer `except Exception` and exits 1
before any record is touched; an empty result set warns and returns early. -/
def process_papers (sanitize : String → String) (writeFails : String → Bool)
    (sync : SyncOutcome) (obsidianDirectory : Option String)
    (fs0 : List (String × String)) : ProcessResult :=
  match sync with
  | SyncOutcome.raises => { state := initState fs0, exited := some 1 }
  | SyncOutcome.ok papers =>
    if papers.isEmpty then
      { state := initState fs0, exited := none }
    else
      { state := exportPapers sanitize writeFails obsidianDirectory papers fs0,
        exited := none }

/-- Directory-level filesystem oracles used by `validate_args`:
`Path(...).exists()`, `Path(...).is_dir()`, and whether
`mkdir(parents=True, exist_ok=True)` raises `OSError`. -/
structure DirFS where
  pathExists : String → Bool
  isDir : String → Bool
  mkdirFails : String → Bool

/-- Result of `validate_args`: the directories successfully created (a `mkdir`
with `parents=True` also creates missing parents) and the exit code if any. -/
structure ValidateResult where
  mkdirs : List String
  exited : Option Nat
deriving DecidableEq, Repr

/-- Lines 13-32, `validate_args(args)`.  An empty-string directory is falsy in
Python (`if args.obsidian_directory:`), so it is skipped like `None`. -/
def validate_args (libraryType : String) (obsidianDirectory : Option String)
    (dirFS : DirFS) : ValidateResult :=
  if !(libraryType == "user" || libraryType == "group") then
    { mkdirs := [], exited := some 1 }
  else
    match obsidianDirectory with
    | none => { mkdirs := [], exited := none }
    | some d =>
      if d == "" then { mkdirs := [], exited := none }
      else if !(dirFS.pathExists d) then
        if dirFS.mkdirFails d then { mkdirs := [], exited := some 1 }
        else { mkdirs := [d], exited := none }
      else if !(dirFS.isDir d) then { mkdirs := [], exited := some 1 }
      else { mkdirs := [], exited := none }

/-- The four argument fields `get_interactive_input` may fill in. -/
structure Creds where
  apiKey : Option String
  libraryId : Option String
  collectionKey : Option String
  obsidianDirectory : Option String
deriving DecidableEq, Repr

/-- What the user would type at each of the four console prompts. -/
structure PromptResponses where
  apiKey : String
  libraryId : String
  collectionKey : String
  obsidianDir : String
deriving DecidableEq, Repr

/-- Python falsiness of an optional string argument (`if not args.x:`):
unset, or set to the empty string. -/
def optFalsy : Option String → Bool
  | none => true
  | some s => s == ""

/-- Lines 37-41: the API key block of `get_interactive_input`.  The key is
stored unstripped but the emptiness check strips it; a blank response is
`sys.exit(1)`. -/
def promptApiKey (args : Creds) (r : PromptResponses) : Except Nat Creds :=
  if optFalsy args.apiKey then
    if pyStrip r.apiKey == "" then Except.error 1
    else Except.ok { args with apiKey := some r.apiKey }
  else Except.ok args

/-- Lines 43-47: the library id block; the response is stored stripped. -/
def promptLibraryId (args : Creds) (r : PromptResponses) : Except Nat Creds :=
  if optFalsy args.libraryId then
    if pyStrip r.libraryId == "" then Except.error 1
    else Except.ok { args with libraryId := some (pyStrip r.libraryId) }
  else Except.ok args

/-- Lines 49-53: the collection key block; the response is stored stripped. -/
def promptCollectionKey (args : Creds) (r : PromptResponses) : Except Nat Creds :=
  if optFalsy args.collectionKey then
    if pyStrip r.collectionKey == "" then Except.error 1
    else Except.ok { args with collectionKey := some (pyStrip r.collectionKey) }
  else Except.ok args

/-- Lines 55-57: the optional directory block; a blank response leaves the
field `None`, never exits. -/
def promptObsidianDir (args : Creds) (r : PromptResponses) : Creds :=
  if optFalsy args.obsidianDirectory then
    { args with obsidianDirectory :=
        if pyStrip r.obsidianDir == "" then none else some (pyStrip r.obsidianDir) }
  else args

/-- Lines 35-57, `get_interactive_input(args)`: the four prompt blocks run in
order, the first blank required response exiting with status 1. -/
def get_interactive_input (args : Creds) (r : PromptResponses) : Except Nat Creds :=
  match promptApiKey args r with
  | Except.error c => Except.error c
  | Except.ok a1 =>
    match promptLibraryId a1 r with
    | Except.error c => Except.error c
    | Except.ok a2 =>
      match promptCollectionKey a2 r with
      | Except.error c => Except.error c
      | Except.ok a3 => Except.ok (promptObsidianDir a3 r)

/-- Where, if anywhere, a `KeyboardInterrupt` fires during the run: while
blocked on a `get_interactive_input` prompt (outside `main`'s try block), or
inside the try block (client init, sync, export), modelled as arriving at its
start. -/
inductive InterruptAt where
  | never
  | duringPrompt
  | duringTry
deriving DecidableEq, Repr

/-- How the process terminates: `main` returns (exit status 0), `sys.exit(code)`
ran, or a `KeyboardInterrupt` propagated out of `main` uncaught (Python then
terminates with a traceback and a non-zero status). -/
inductive ExitKind where
  | normal
  | exited (code : Nat)
  | uncaughtInterrupt
deriving DecidableEq, Repr

/-- The configuration argparse resolves from flags, environment variables and
defaults (lines 106-132). -/
structure Args where
  apiKey : Option String
  libraryId : Option String
  collectionKey : Option String
  libraryType : String
  obsidianDirectory : Option String
  dryRun : Bool
  verbose : Bool
deriving DecidableEq, Repr

/-- The credential fields of `args`, as `get_interactive_input` sees them. -/
def credsOf (args : Args) : Creds :=
  { apiKey := args.apiKey, libraryId := args.libraryId,
    collectionKey := args.collectionKey,
    obsidianDirectory := args.obsidianDirectory }

/-- Everything observable about one process run. -/
structure MainResult where
  mkdirs : List String
  state : ExportState
  syncAttempted : Bool
  exit : ExitKind
deriving Repr

/-- Lines 104-174, `main()`, after argparse.  `validate_args` and
`get_interactive_input` run BEFORE the `try`, so an interrupt during a prompt is
not caught by the `except KeyboardInterrupt` handler.  `initFails` models the
client constructors or `.init()` calls raising (caught by `except Exception`,
exit 1).  `sys.exit(1)` inside `process_papers` raises `SystemExit`, which
`except Exception` does not catch, so the process exits 1. -/
def mainRun (args : Args) (r : PromptResponses) (dirFS : DirFS)
    (sanitize : String → String) (writeFails : String → Bool)
    (sync : SyncOutcome) (initFails : Bool) (interrupt : InterruptAt)
    (fs0 : List (String × String)) : MainResult :=
  let v := validate_args args.libraryType args.obsidianDirectory dirFS
  match v.exited with
  | some c =>
    { mkdirs := v.mkdirs, state := initState fs0, syncAttempted := false,
      exit := ExitKind.exited c }
  | none =>
    if interrupt == InterruptAt.duringPrompt then
      { mkdirs := v.mkdirs, state := initState fs0, syncAttempted := false,
        exit := ExitKind.uncaughtInterrupt }
    else
      match get_interactive_input (credsOf args) r with
      | Except.error c =>
        { mkdirs := v.mkdirs, state := initState fs0, syncAttempted := false,
          exit := ExitKind.exited c }
      | Except.ok creds2 =>
        if interrupt == InterruptAt.duringTry then
          { mkdirs := v.mkdirs, state := initState fs0, syncAttempted := false,
            exit := ExitKind.exited 0 }
        else if initFails then
          { mkdirs := v.mkdirs, state := initState fs0, syncAttempted := false,
            exit := ExitKind.exited 1 }
        else
          let obsidianDir := if args.dryRun then none else creds2.obsidianDirectory
          let pr := process_papers sanitize writeFails sync obsidianDir fs0
          { mkdirs := v.mkdirs, state := pr.state, syncAttempted := true,
            exit := match pr.exited with
                    | some c => ExitKind.exited c
                    | none => ExitKind.normal }

example :
    exportPapers id (fun _ => false) (some "/tmp/out")
      [{ title := "Paper A", fulltext := some (CellValue.str "Body A") },
       { title := "Paper B", fulltext := some (CellValue.str "") }] []
    = { fs := [("/tmp/out/Paper A.md", "# Paper A\n\nBody A")],
        log := [("/tmp/out/Paper A.md", "# Paper A\n\nBody A")],
        processedCount := 1, skipped := ["Paper B"] } := by decide

/-! ### Characterization of one loop iteration -/

/-- The write event `processRecord` performs for `p`, if any. -/
def recordWrite (sanitize : String → String) (writeFails : String → Bool)
    (d : Option String) (p : Paper) : Option (String × String) :=
  if hasFulltext p then
    match d with
    | some dir =>
      if dir == "" then none
      else
        if writeFails (paperPath sanitize dir p.title) then none
        else some (paperPath sanitize dir p.title, markdownText p.title (fulltextStr p))
    | none => none
  else none

/-- Whether `processRecord` increments `processed_count` for `p`. -/
def countedHere (sanitize : String → String) (writeFails : String → Bool)
    (d : Option String) (p : Paper) : Bool :=
  hasFulltext p &&
    (match d with
     | some dir => dir == "" || !(writeFails (paperPath sanitize dir p.title))
     | none => true)

theorem processRecord_fs (sanitize : String → String) (writeFails : String → Bool)
    (d : Option String) (st : ExportState) (p : Paper) :
    (processRecord sanitize writeFails d st p).fs =
      (match recordWrite sanitize writeFails d p with
       | some e => e :: st.fs
       | none => st.fs) := by
  unfold processRecord recordWrite
  cases hasFulltext p
  · simp
  · cases d with
    | none => simp
    | some dir =>
      cases h1 : (dir == "")
      · cases h2 : writeFails (paperPath sanitize dir p.title) <;> simp [h1, h2]
      · simp [h1]

theorem processRecord_log (sanitize : String → String) (writeFails : String → Bool)
    (d : Option String) (st : ExportState) (p : Paper) :
    (processRecord sanitize writeFails d st p).log =
      st.log ++ (recordWrite sanitize writeFails d p).toList := by
  unfold processRecord recordWrite
  cases hasFulltext p
  · simp
  · cases d with
    | none => simp
    | some dir =>
      cases h1 : (dir == "")
      · cases h2 : writeFails (paperPath sanitize dir p.title) <;> simp [h1, h2]
      · simp [h1]

theorem processRecord_processedCount (sanitize : String → String) (writeFails : String → Bool)
    (d : Option String) (st : ExportState) (p : Paper) :
    (processRecord sanitize writeFails d st p).processedCount =
      st.processedCount + (if countedHere sanitize writeFails d p then 1 else 0) := by
  unfold processRecord countedHere
  cases hasFulltext p
  · simp
  · cases d with
    | none => simp
    | some dir =>
      cases h1 : (dir == "")
      · cases h2 : writeFails (paperPath sanitize dir p.title) <;> simp [h1, h2]
      · simp [h1]

/-! ### Characterization of the whole record loop -/

/-- The chronological write events a whole run performs. -/
def runWrites (sanitize : String → String) (writeFails : String → Bool)
    (d : Option String) : List Paper → List (String × String)
  | [] => []
  | p :: rest =>
    (recordWrite sanitize writeFails d p).toList ++ runWrites sanitize writeFails d rest

/-- The content that the LAST paper writing to `path` leaves there, if any. -/
def lastWriteContent (sanitize : String → String) (writeFails : String → Bool)
    (d : Option String) (papers : List Paper) (path : String) : Option String :=
  match papers with
  | [] => none
  | p :: rest =>
    match lastWriteContent sanitize writeFails d rest path with
    | some c => some c
    | none =>
      match recordWrite sanitize writeFails d p with
      | some e => if e.1 == path then some e.2 else none
      | none => none

theorem fsLookup_cons (e : String × String) (fs : List (String × String)) (path : String) :
    fsLookup (e :: fs) path = if e.1 == path then some e.2 else fsLookup fs path := by
  unfold fsLookup
  cases h : (e.1 == path) <;> simp [List.find?, h]

theorem foldl_log (sanitize : String → String) (writeFails : String → Bool)
    (d : Option String) (papers : List Paper) :
    ∀ st : ExportState,
      (papers.foldl (processRecord sanitize writeFails d) st).log =
        st.log ++ runWrites sanitize writeFails d papers := by
  induction papers with
  | nil => intro st; simp [runWrites]
  | cons p rest ih =>
    intro st
    rw [List.foldl_cons, ih, processRecord_log]
    simp [runWrites]

theorem foldl_processedCount (sanitize : String → String) (writeFails : String → Bool)
    (d : Option String) (papers : List Paper) :
    ∀ st : ExportState,
      (papers.foldl (processRecord sanitize writeFails d) st).processedCount =
        st.processedCount + papers.countP (countedHere sanitize writeFails d) := by
  induction papers with
  | nil => intro st; simp
  | cons p rest ih =>
    intro st
    rw [List.foldl_cons, ih, processRecord_processedCount, List.countP_cons]
    omega

theorem lastWriteContent_cons (sanitize : String → String) (writeFails : String → Bool)
    (d : Option String) (p : Paper) (rest : List Paper) (path : String) :
    lastWriteContent sanitize writeFails d (p :: rest) path =
      (match lastWriteContent sanitize writeFails d rest path with
       | some c => some c
       | none =>
         match recordWrite sanitize writeFails d p with
         | some e => if e.1 == path then some e.2 else none
         | none => none) := rfl

theorem foldl_fsLookup (sanitize : String → String) (writeFails : String → Bool)
    (d : Option String) (papers : List Paper) :
    ∀ (st : ExportState) (path : String),
      fsLookup (papers.foldl (processRecord sanitize writeFails d) st).fs path =
        (match lastWriteContent sanitize writeFails d papers path with
         | some c => some c
         | none => fsLookup st.fs path) := by
  induction papers with
  | nil => intro st path; simp [lastWriteContent]
  | cons p rest ih =>
    intro st path
    rw [List.foldl_cons, ih, lastWriteContent_cons]
    cases hrest : lastWriteContent sanitize writeFails d rest path with
    | some c => simp
    | none =>
      simp only
      rw [processRecord_fs]
      cases recordWrite sanitize writeFails d p with
      | none => simp
      | some e =>
        simp only
        rw [fsLookup_cons]
        cases h : (e.1 == path) <;> simp [h]

/-! ### Inversion and vanishing lemmas for write events -/

theorem recordWrite_eq_some (sanitize : String → String) (writeFails : String → Bool)
    (d : Option String) (p : Paper) (e : String × String)
    (h : recordWrite sanitize writeFails d p = some e) :
    hasFulltext p = true ∧
      ∃ dir, d = some dir ∧ (dir == "") = false ∧
        writeFails (paperPath sanitize dir p.title) = false ∧
        e = (paperPath sanitize dir p.title, markdownText p.title (fulltextStr p)) := by
  cases d with
  | none =>
    cases hf : hasFulltext p <;> simp [recordWrite, hf] at h
  | some dir =>
    cases hf : hasFulltext p
    · simp [recordWrite, hf] at h
    · cases h1 : (dir == "")
      · cases h2 : writeFails (paperPath sanitize dir p.title)
        · simp [recordWrite, hf, h1, h2] at h
          exact ⟨rfl, dir, rfl, h1, h2, h.symm⟩
        · simp [recordWrite, hf, h1, h2] at h
      · simp [recordWrite, hf, h1] at h

theorem recordWrite_dir_none (sanitize : String → String) (writeFails : String → Bool)
    (p : Paper) : recordWrite sanitize writeFails none p = none := by
  unfold recordWrite
  cases hasFulltext p <;> simp

theorem recordWrite_allFail (sanitize : String → String) (writeFails : String → Bool)
    (d : Option String) (p : Paper) (hw : ∀ path, writeFails path = true) :
    recordWrite sanitize writeFails d p = none := by
  unfold recordWrite
  cases hasFulltext p
  · simp
  · cases d with
    | none => simp
    | some dir => cases h1 : (dir == "") <;> simp [h1, hw]

theorem runWrites_eq_nil (sanitize : String → String) (writeFails : String → Bool)
    (d : Option String) (papers : List Paper)
    (h : ∀ p ∈ papers, recordWrite sanitize writeFails d p = none) :
    runWrites sanitize writeFails d papers = [] := by
  induction papers with
  | nil => rfl
  | cons p rest ih =>
    unfold runWrites
    rw [h p (List.mem_cons_self p rest), ih (fun q hq => h q (List.mem_cons_of_mem p hq))]
    rfl

theorem foldl_fs_eq (sanitize : String → String) (writeFails : String → Bool)
    (d : Option String) (papers : List Paper)
    (h : ∀ p ∈ papers, recordWrite sanitize writeFails d p = none) :
    ∀ st : ExportState,
      (papers.foldl (processRecord sanitize writeFails d) st).fs = st.fs := by
  induction papers with
  | nil => intro st; rfl
  | cons p rest ih =>
    intro st
    rw [List.foldl_cons, ih (fun q hq => h q (List.mem_cons_of_mem p hq)), processRecord_fs,
      h p (List.mem_cons_self p rest)]

theorem mem_runWrites (sanitize : String → String) (writeFails : String → Bool)
    (d : Option String) (papers : List Paper) (e : String × String)
    (h : e ∈ runWrites sanitize writeFails d papers) :
    ∃ p, p ∈ papers ∧ recordWrite sanitize writeFails d p = some e := by
  induction papers with
  | nil => exact absurd h (by simp [runWrites])
  | cons p rest ih =>
    unfold runWrites at h
    rcases List.mem_append.mp h with h1 | h2
    · refine ⟨p, List.mem_cons_self p rest, ?_⟩
      cases hr : recordWrite sanitize writeFails d p <;> rw [hr] at h1
      · simp at h1
      · simp at h1
        rw [h1]
    · obtain ⟨q, hq, hrq⟩ := ih h2
      exact ⟨q, List.mem_cons_of_mem p hq, hrq⟩

theorem runWrites_of_mem (sanitize : String → String) (writeFails : String → Bool)
    (d : Option String) (papers : List Paper) (p : Paper) (e : String × String)
    (hp : p ∈ papers) (he : recordWrite sanitize writeFails d p = some e) :
    e ∈ runWrites sanitize writeFails d papers := by
  induction papers with
  | nil => exact absurd hp (by simp)
  | cons q rest ih =>
    unfold runWrites
    rcases List.mem_cons.mp hp with h1 | h2
    · subst h1
      rw [he]
      exact List.mem_append.mpr (Or.inl (by simp))
    · exact List.mem_append.mpr (Or.inr (ih h2))

/-! ### Lemmas about the interactive prompter -/

theorem promptApiKey_ok_obsidianDirectory (args : Creds) (r : PromptResponses)
    (a1 : Creds) (h : promptApiKey args r = Except.ok a1) :
    a1.obsidianDirectory = args.obsidianDirectory := by
  unfold promptApiKey at h
  by_cases h1 : optFalsy args.apiKey = true
  · rw [if_pos h1] at h
    by_cases h2 : (pyStrip r.apiKey == "") = true
    · rw [if_pos h2] at h; exact absurd h (by simp)
    · rw [if_neg h2] at h
      simp at h
      rw [← h]
  · rw [if_neg h1] at h
    simp at h
    rw [← h]

theorem promptLibraryId_ok_obsidianDirectory (args : Creds) (r : PromptResponses)
    (a1 : Creds) (h : promptLibraryId args r = Except.ok a1) :
    a1.obsidianDirectory = args.obsidianDirectory := by
  unfold promptLibraryId at h
  by_cases h1 : optFalsy args.libraryId = true
  · rw [if_pos h1] at h
    by_cases h2 : (pyStrip r.libraryId == "") = true
    · rw [if_pos h2] at h; exact absurd h (by simp)
    · rw [if_neg h2] at h
      simp at h
      rw [← h]
  · rw [if_neg h1] at h
    simp at h
    rw [← h]

theorem promptCollectionKey_ok_obsidianDirectory (args : Creds) (r : PromptResponses)
    (a1 : Creds) (h : promptCollectionKey args r = Except.ok a1) :
    a1.obsidianDirectory = args.obsidianDirectory := by
  unfold promptCollectionKey at h
  by_cases h1 : optFalsy args.collectionKey = true
  · rw [if_pos h1] at h
    by_cases h2 : (pyStrip r.collectionKey == "") = true
    · rw [if_pos h2] at h; exact absurd h (by simp)
    · rw [if_neg h2] at h
      simp at h
      rw [← h]
  · rw [if_neg h1] at h
    simp at h
    rw [← h]

theorem promptObsidianDir_obsidianDirectory (args : Creds) (r : PromptResponses) :
    (promptObsidianDir args r).obsidianDirectory =
      (if optFalsy args.obsidianDirectory then
        (if pyStrip r.obsidianDir == "" then none else some (pyStrip r.obsidianDir))
       else args.obsidianDirectory) := by
  unfold promptObsidianDir
  by_cases h : optFalsy args.obsidianDirectory = true
  · rw [if_pos h, if_pos h]
  · rw [if_neg h, if_neg h]

theorem get_interactive_input_ok_obsidianDirectory (args : Creds) (r : PromptResponses)
    (c : Creds) (h : get_interactive_input args r = Except.ok c) :
    c.obsidianDirectory =
      (if optFalsy args.obsidianDirectory then
        (if pyStrip r.obsidianDir == "" then none else some (pyStrip r.obsidianDir))
       else args.obsidianDirectory) := by
  unfold get_interactive_input at h
  cases h1 : promptApiKey args r with
  | error e => simp only [h1] at h; exact absurd h (by simp)
  | ok a1 =>
    simp only [h1] at h
    cases h2 : promptLibraryId a1 r with
    | error e => simp only [h2] at h; exact absurd h (by simp)
    | ok a2 =>
      simp only [h2] at h
      cases h3 : promptCollectionKey a2 r with
      | error e => simp only [h3] at h; exact absurd h (by simp)
      | ok a3 =>
        simp only [h3] at h
        simp at h
        rw [← h, promptObsidianDir_obsidianDirectory,
          promptCollectionKey_ok_obsidianDirectory a2 r a3 h3,
          promptLibraryId_ok_obsidianDirectory a1 r a2 h2,
          promptApiKey_ok_obsidianDirectory args r a1 h1]

/-! ### Concrete fixtures used by witnesses and counterexamples -/

def paperA : Paper := { title := "Paper A", fulltext := some (CellValue.str "Body A") }

def paperB : Paper := { title := "Paper B", fulltext := some (CellValue.str "") }

def paperC : Paper := { title := "Paper C", fulltext := some (CellValue.str "Body C") }

def noFail : String → Bool := fun _ => false

def failA : String → Bool := fun path => path == "out/Paper A.md"

def dirFSAllOk : DirFS :=
  { pathExists := fun _ => true, isDir := fun _ => true, mkdirFails := fun _ => false }

def dirFSNothing : DirFS :=
  { pathExists := fun _ => false, isDir := fun _ => false, mkdirFails := fun _ => false }

def responsesBasic : PromptResponses :=
  { apiKey := "K1", libraryId := "L1", collectionKey := "C1", obsidianDir := "" }

/-! ### The claims -/

/-- C1: for every record whose fulltext field is a non-blank string after
stripping, exported with an output directory configured and whose write
succeeds, the run writes the file at the sanitized path with content exactly
`"# " ++ title ++ "\n\n" ++ fulltext`: a markdown header line with the title, a
blank line, and the full text verbatim. -/
theorem c1_written_file_content (sanitize : String → String) (writeFails : String → Bool)
    (papers : List Paper) (fs0 : List (String × String)) (dir : String) (p : Paper)
    (hdir : dir ≠ "") (hp : p ∈ papers) (hq : hasFulltext p = true)
    (hw : writeFails (paperPath sanitize dir p.title) = false) :
    (paperPath sanitize dir p.title, markdownText p.title (fulltextStr p))
      ∈ (process_papers sanitize writeFails (SyncOutcome.ok papers) (some dir) fs0).state.log := by
  have hne : papers.isEmpty = false := by
    cases papers
    · exact absurd hp (by simp)
    · rfl
  have hd : (dir == "") = false := by simp [hdir]
  have hrw : recordWrite sanitize writeFails (some dir) p =
      some (paperPath sanitize dir p.title, markdownText p.title (fulltextStr p)) := by
    simp [recordWrite, hq, hd, hw]
  have hmem := runWrites_of_mem sanitize writeFails (some dir) papers p _ hp hrw
  simp [process_papers, hne, exportPapers, foldl_log, initState]
  exact hmem

theorem c1_witness :
    (paperPath id "out" paperA.title, markdownText paperA.title (fulltextStr paperA))
      ∈ (process_papers id noFail (SyncOutcome.ok [paperA]) (some "out") []).state.log :=
  c1_written_file_content id noFail [paperA] [] "out" paperA (by decide) (by decide)
    (by decide) rfl

/-- C2: a markdown file write happens only for records whose fulltext field is
present, is a string, and is non-blank after stripping (every write event in
the log stems from such a record), and the processed count counts exactly the
records satisfying `countedHere` — whose definition requires `hasFulltext` —
so records failing the test produce no file and are excluded from the count. -/
theorem c2_only_qualifying_records (sanitize : String → String) (writeFails : String → Bool)
    (d : Option String) (papers : List Paper) (fs0 : List (String × String)) :
    (process_papers sanitize writeFails (SyncOutcome.ok papers) d fs0).state.processedCount
        = papers.countP (countedHere sanitize writeFails d)
    ∧ ∀ e ∈ (process_papers sanitize writeFails (SyncOutcome.ok papers) d fs0).state.log,
        ∃ p, p ∈ papers ∧ hasFulltext p = true ∧
          ∃ dir, d = some dir ∧
            e = (paperPath sanitize dir p.title, markdownText p.title (fulltextStr p)) := by
  cases hne : papers.isEmpty
  · constructor
    · simp [process_papers, hne, exportPapers, foldl_processedCount, initState]
    · intro e he
      simp [process_papers, hne, exportPapers, foldl_log, initState] at he
      obtain ⟨p, hp, hrw⟩ := mem_runWrites sanitize writeFails d papers e he
      obtain ⟨hq, dir, hd, _, _, hee⟩ := recordWrite_eq_some sanitize writeFails d p e hrw
      exact ⟨p, hp, hq, dir, hd, hee⟩
  · have hpnil : papers = [] := List.isEmpty_iff.mp hne
    subst hpnil
    exact ⟨by simp [process_papers, initState], by simp [process_papers, initState]⟩

theorem c2_witness :
    (process_papers id noFail (SyncOutcome.ok [paperA, paperB]) (some "out") []).state.processedCount
      = List.countP (countedHere id noFail (some "out")) [paperA, paperB] :=
  (c2_only_qualifying_records id noFail (some "out") [paperA, paperB] []).1

/-- C6: a record whose file write raises an I/O error is skipped without being
counted and without aborting: the run over `l1 ++ p :: l2` produces exactly the
state of the run over `l1 ++ l2`, so every subsequent record is still processed
in order with identical effect. -/
theorem c6_write_failure_continues (sanitize : String → String) (writeFails : String → Bool)
    (dir : String) (fs0 : List (String × String)) (l1 l2 : List Paper) (p : Paper)
    (hdir : dir ≠ "") (hq : hasFulltext p = true)
    (hw : writeFails (paperPath sanitize dir p.title) = true) :
    exportPapers sanitize writeFails (some dir) (l1 ++ p :: l2) fs0
      = exportPapers sanitize writeFails (some dir) (l1 ++ l2) fs0 := by
  have hd : (dir == "") = false := by simp [hdir]
  unfold exportPapers
  rw [List.foldl_append, List.foldl_append, List.foldl_cons]
  congr 1
  simp [processRecord, hq, hd, hw]

theorem c6_witness :
    exportPapers id failA (some "out") ([paperC] ++ paperA :: [paperB]) []
      = exportPapers id failA (some "out") ([paperC] ++ [paperB]) [] :=
  c6_write_failure_continues id failA "out" [] [paperC] [paperB] paperA
    (by decide) (by decide) (by decide)

/-- C7: when synchronization or result retrieval raises, `process_papers`
catches it at the call site and exits with the non-zero status 1, with no file
written and the file system untouched (no partial results, no retry). -/
theorem c7_sync_failure_exits_nonzero (sanitize : String → String)
    (writeFails : String → Bool) (d : Option String) (fs0 : List (String × String)) :
    (process_papers sanitize writeFails SyncOutcome.raises d fs0).exited = some 1
    ∧ (process_papers sanitize writeFails SyncOutcome.raises d fs0).state.log = []
    ∧ (process_papers sanitize writeFails SyncOutcome.raises d fs0).state.fs = fs0 :=
  ⟨rfl, rfl, rfl⟩

/-- Content of a file after a run, characterized by the last record writing to
its path. -/
theorem exportPapers_fsLookup (sanitize : String → String) (writeFails : String → Bool)
    (d : Option String) (papers : List Paper) (fs0 : List (String × String)) (path : String) :
    fsLookup (exportPapers sanitize writeFails d papers fs0).fs path =
      (match lastWriteContent sanitize writeFails d papers path with
       | some c => some c
       | none => fsLookup fs0 path) := by
  unfold exportPapers
  rw [foldl_fsLookup]
  cases lastWriteContent sanitize writeFails d papers path <;> simp [initState]

/-- C9: export is idempotent — running the export a second time on the same
result set over the file system left by the first run leaves every path with
exactly the content it had after the first run: files are overwritten in place,
never duplicated, with no collision detection. -/
theorem c9_export_idempotent (sanitize : String → String) (writeFails : String → Bool)
    (d : Option String) (papers : List Paper) (fs0 : List (String × String)) (path : String) :
    fsLookup (exportPapers sanitize writeFails d papers
        (exportPapers sanitize writeFails d papers fs0).fs).fs path
      = fsLookup (exportPapers sanitize writeFails d papers fs0).fs path := by
  rw [exportPapers_fsLookup, exportPapers_fsLookup]
  cases lastWriteContent sanitize writeFails d papers path <;> simp

theorem c9_witness :
    fsLookup (exportPapers id noFail (some "out") [paperA]
        (exportPapers id noFail (some "out") [paperA] []).fs).fs "out/Paper A.md"
      = fsLookup (exportPapers id noFail (some "out") [paperA] []).fs "out/Paper A.md" :=
  c9_export_idempotent id noFail (some "out") [paperA] [] "out/Paper A.md"

/-! ### Helpers for the process-level claims -/

theorem validate_args_valid_none (libraryType : String) (dirFS : DirFS)
    (hlib : libraryType = "user" ∨ libraryType = "group") :
    validate_args libraryType none dirFS = { mkdirs := [], exited := none } := by
  rcases hlib with h | h <;> subst h <;> simp [validate_args]

theorem mainRun_mkdirs (args : Args) (r : PromptResponses) (dirFS : DirFS)
    (sanitize : String → String) (writeFails : String → Bool) (sync : SyncOutcome)
    (initFails : Bool) (interrupt : InterruptAt) (fs0 : List (String × String)) :
    (mainRun args r dirFS sanitize writeFails sync initFails interrupt fs0).mkdirs
      = (validate_args args.libraryType args.obsidianDirectory dirFS).mkdirs := by
  simp only [mainRun]
  split
  · rfl
  · split
    · rfl
    · split
      · rfl
      · split
        · rfl
        · split
          · rfl
          · rfl

/-- Every exit path of `mainRun` leaves either the untouched initial state or
whatever `process_papers` produced for the post-prompt directory. -/
theorem mainRun_state_shape (args : Args) (r : PromptResponses) (dirFS : DirFS)
    (sanitize : String → String) (writeFails : String → Bool) (sync : SyncOutcome)
    (initFails : Bool) (interrupt : InterruptAt) (fs0 : List (String × String)) :
    (mainRun args r dirFS sanitize writeFails sync initFails interrupt fs0).state
        = initState fs0
    ∨ ∃ c2, get_interactive_input (credsOf args) r = Except.ok c2
        ∧ (mainRun args r dirFS sanitize writeFails sync initFails interrupt fs0).state
            = (process_papers sanitize writeFails sync
                (if args.dryRun then none else c2.obsidianDirectory) fs0).state := by
  simp only [mainRun]
  split
  · exact Or.inl rfl
  · split
    · exact Or.inl rfl
    · split
      · exact Or.inl rfl
      · rename_i creds2 hgii
        split
        · exact Or.inl rfl
        · split
          · exact Or.inl rfl
          · exact Or.inr ⟨creds2, hgii, rfl⟩

theorem process_papers_dir_none (sanitize : String → String) (writeFails : String → Bool)
    (sync : SyncOutcome) (fs0 : List (String × String)) :
    (process_papers sanitize writeFails sync none fs0).state.log = []
    ∧ (process_papers sanitize writeFails sync none fs0).state.fs = fs0 := by
  cases sync with
  | raises => exact ⟨rfl, rfl⟩
  | ok papers =>
    have hrw : ∀ p ∈ papers, recordWrite sanitize writeFails none p = none :=
      fun p _ => recordWrite_dir_none sanitize writeFails p
    cases hne : papers.isEmpty
    · constructor
      · simp [process_papers, hne, exportPapers, foldl_log, initState,
          runWrites_eq_nil sanitize writeFails none papers hrw]
      · simp [process_papers, hne, exportPapers,
          foldl_fs_eq sanitize writeFails none papers hrw, initState]
    · exact ⟨by simp [process_papers, hne, initState], by simp [process_papers, hne, initState]⟩

theorem process_papers_allFail (sanitize : String → String) (writeFails : String → Bool)
    (papers : List Paper) (dir : String) (fs0 : List (String × String))
    (hdir : dir ≠ "") (hw : ∀ path, writeFails path = true) :
    (process_papers sanitize writeFails (SyncOutcome.ok papers) (some dir) fs0).state.log = []
    ∧ (process_papers sanitize writeFails (SyncOutcome.ok papers) (some dir) fs0).state.fs = fs0
    ∧ (process_papers sanitize writeFails (SyncOutcome.ok papers) (some dir) fs0).state.processedCount = 0
    ∧ (process_papers sanitize writeFails (SyncOutcome.ok papers) (some dir) fs0).exited = none := by
  have hd : (dir == "") = false := by simp [hdir]
  have hrw : ∀ p ∈ papers, recordWrite sanitize writeFails (some dir) p = none :=
    fun p _ => recordWrite_allFail sanitize writeFails (some dir) p hw
  have hcount : ∀ p ∈ papers, ¬ countedHere sanitize writeFails (some dir) p = true := by
    intro p _
    simp [countedHere, hd, hw]
  cases hne : papers.isEmpty
  · refine ⟨?_, ?_, ?_, ?_⟩
    · simp [process_papers, hne, exportPapers, foldl_log, initState,
        runWrites_eq_nil sanitize writeFails (some dir) papers hrw]
    · simp [process_papers, hne, exportPapers,
        foldl_fs_eq sanitize writeFails (some dir) papers hrw, initState]
    · simp [process_papers, hne, exportPapers, foldl_processedCount, initState,
        List.countP_eq_zero.mpr hcount]
    · simp [process_papers, hne]
  · exact ⟨by simp [process_papers, hne, initState], by simp [process_papers, hne, initState],
      by simp [process_papers, hne, initState], by simp [process_papers, hne]⟩

def argsPromptNeeded : Args :=
  { apiKey := none, libraryId := some "L1", collectionKey := some "C1",
    libraryType := "user", obsidianDirectory := none, dryRun := false, verbose := false }

def argsAllSet : Args :=
  { apiKey := some "K1", libraryId := some "L1", collectionKey := some "C1",
    libraryType := "user", obsidianDirectory := none, dryRun := false, verbose := false }

def argsDryRunWithDir : Args :=
  { apiKey := some "K1", libraryId := some "L1", collectionKey := some "C1",
    libraryType := "user", obsidianDirectory := some "vault", dryRun := true,
    verbose := false }

/-- C3 counterexample: the API key is missing, so the program blocks on an
interactive prompt; `validate_args` and `get_interactive_input` run BEFORE the
try block of `main`, so a keyboard interrupt arriving during the prompt
propagates out of `main` uncaught — the process does not exit with status 0,
refuting the claim for interrupts during interactive prompts. -/
theorem c3_counterexample :
    (mainRun argsPromptNeeded responsesBasic dirFSAllOk id noFail (SyncOutcome.ok [])
        false InterruptAt.duringPrompt []).exit = ExitKind.uncaughtInterrupt
    ∧ (mainRun argsPromptNeeded responsesBasic dirFSAllOk id noFail (SyncOutcome.ok [])
        false InterruptAt.duringPrompt []).exit ≠ ExitKind.exited 0 := by decide

/-- C3 amended: a keyboard interrupt raised inside `main`'s try block — during
client initialization, synchronization, or export — is caught by the
`except KeyboardInterrupt` handler and the process exits with status 0; an
interrupt while blocked on an interactive prompt happens before the try block
and is not caught there. -/
theorem c3_interrupt_in_try_exits_zero (args : Args) (r : PromptResponses) (dirFS : DirFS)
    (sanitize : String → String) (writeFails : String → Bool) (sync : SyncOutcome)
    (initFails : Bool) (fs0 : List (String × String))
    (hv : (validate_args args.libraryType args.obsidianDirectory dirFS).exited = none)
    (hp : ∃ c, get_interactive_input (credsOf args) r = Except.ok c) :
    (mainRun args r dirFS sanitize writeFails sync initFails InterruptAt.duringTry fs0).exit
      = ExitKind.exited 0 := by
  obtain ⟨c, hc⟩ := hp
  simp [mainRun, hv, hc]

theorem c3_witness :
    (mainRun argsAllSet responsesBasic dirFSAllOk id noFail (SyncOutcome.ok []) false
        InterruptAt.duringTry []).exit = ExitKind.exited 0 :=
  c3_interrupt_in_try_exits_zero argsAllSet responsesBasic dirFSAllOk id noFail
    (SyncOutcome.ok []) false [] (by decide) ⟨_, rfl⟩

/-- C4 counterexample: with the dry-run flag set and a missing output directory
supplied, `validate_args` still creates the directory — a filesystem write —
even though the markdown export itself is suppressed (empty write log).  This
refutes "no filesystem writes whatsoever" for dry runs. -/
theorem c4_counterexample :
    (mainRun argsDryRunWithDir responsesBasic dirFSNothing id noFail
        (SyncOutcome.ok [paperA]) false InterruptAt.never []).mkdirs = ["vault"]
    ∧ (mainRun argsDryRunWithDir responsesBasic dirFSNothing id noFail
        (SyncOutcome.ok [paperA]) false InterruptAt.never []).state.log = [] := by decide

/-- C4 amended: when the dry-run flag is set, no markdown file is ever written
and the file contents are untouched (though a supplied-but-missing output
directory is still created during validation); when no output directory is
configured by flag, environment, or prompt, the run performs no filesystem
writes at all — no directory creation and no file writes. -/
theorem c4_no_markdown_writes (args : Args) (r : PromptResponses) (dirFS : DirFS)
    (sanitize : String → String) (writeFails : String → Bool) (sync : SyncOutcome)
    (initFails : Bool) (interrupt : InterruptAt) (fs0 : List (String × String)) :
    (args.dryRun = true →
      (mainRun args r dirFS sanitize writeFails sync initFails interrupt fs0).state.log = []
      ∧ (mainRun args r dirFS sanitize writeFails sync initFails interrupt fs0).state.fs = fs0)
    ∧ (args.obsidianDirectory = none → pyStrip r.obsidianDir = "" →
      (mainRun args r dirFS sanitize writeFails sync initFails interrupt fs0).mkdirs = []
      ∧ (mainRun args r dirFS sanitize writeFails sync initFails interrupt fs0).state.log = []
      ∧ (mainRun args r dirFS sanitize writeFails sync initFails interrupt fs0).state.fs = fs0) := by
  constructor
  · intro hdry
    rcases mainRun_state_shape args r dirFS sanitize writeFails sync initFails interrupt fs0 with
      hst | ⟨c2, _, hst⟩
    · rw [hst]
      exact ⟨rfl, rfl⟩
    · rw [hst, hdry]
      simp only [if_true]
      exact process_papers_dir_none sanitize writeFails sync fs0
  · intro hnone hblank
    refine ⟨?_, ?_⟩
    · rw [mainRun_mkdirs, hnone]
      unfold validate_args
      split
      · rfl
      · rfl
    · rcases mainRun_state_shape args r dirFS sanitize writeFails sync initFails interrupt fs0 with
        hst | ⟨c2, hc2, hst⟩
      · rw [hst]
        exact ⟨rfl, rfl⟩
      · have hdir : c2.obsidianDirectory = none := by
          rw [get_interactive_input_ok_obsidianDirectory _ _ _ hc2]
          simp [credsOf, hnone, optFalsy, hblank]
        rw [hst, hdir]
        have : (if args.dryRun then none else (none : Option String)) = none := by
          cases args.dryRun <;> rfl
        rw [this]
        exact process_papers_dir_none sanitize writeFails sync fs0

theorem c4_witness :
    (mainRun argsAllSet responsesBasic dirFSAllOk id noFail (SyncOutcome.ok [paperA]) false
        InterruptAt.never []).mkdirs = []
    ∧ (mainRun argsAllSet responsesBasic dirFSAllOk id noFail (SyncOutcome.ok [paperA]) false
        InterruptAt.never []).state.log = []
    ∧ (mainRun argsAllSet responsesBasic dirFSAllOk id noFail (SyncOutcome.ok [paperA]) false
        InterruptAt.never []).state.fs = [] :=
  (c4_no_markdown_writes argsAllSet responsesBasic dirFSAllOk id noFail (SyncOutcome.ok [paperA])
    false InterruptAt.never []).2 rfl (by decide)

/-- C5: for every resolved configuration whose library type is neither "user"
nor "group", `validate_args` exits with status 1 and no synchronization is ever
attempted, whatever the rest of the configuration, prompts, file system, result
set, or interrupt timing. -/
theorem c5_invalid_library_type (args : Args) (r : PromptResponses) (dirFS : DirFS)
    (sanitize : String → String) (writeFails : String → Bool) (sync : SyncOutcome)
    (initFails : Bool) (interrupt : InterruptAt) (fs0 : List (String × String))
    (h1 : args.libraryType ≠ "user") (h2 : args.libraryType ≠ "group") :
    (mainRun args r dirFS sanitize writeFails sync initFails interrupt fs0).exit
        = ExitKind.exited 1
    ∧ (mainRun args r dirFS sanitize writeFails sync initFails interrupt fs0).syncAttempted
        = false := by
  have hb : (args.libraryType == "user" || args.libraryType == "group") = false := by
    simp [h1, h2]
  have hv : validate_args args.libraryType args.obsidianDirectory dirFS
      = { mkdirs := [], exited := some 1 } := by
    unfold validate_args
    rw [hb]
    simp
  constructor <;> simp [mainRun, hv]

def argsBadType : Args :=
  { apiKey := some "K1", libraryId := some "L1", collectionKey := some "C1",
    libraryType := "shared", obsidianDirectory := none, dryRun := false, verbose := false }

theorem c5_witness :
    (mainRun argsBadType responsesBasic dirFSAllOk id noFail (SyncOutcome.ok [paperA]) false
        InterruptAt.never []).exit = ExitKind.exited 1
    ∧ (mainRun argsBadType responsesBasic dirFSAllOk id noFail (SyncOutcome.ok [paperA]) false
        InterruptAt.never []).syncAttempted = false :=
  c5_invalid_library_type argsBadType responsesBasic dirFSAllOk id noFail (SyncOutcome.ok [paperA])
    false InterruptAt.never [] (by decide) (by decide)

/-- C8: a supplied output directory is validated before any synchronization
call: a missing directory is created (with parents); a failure to create it
exits with status 1 before any sync; a path that exists but is not a directory
exits with status 1 before any sync. -/
theorem c8_supplied_directory_validated (args : Args) (r : PromptResponses) (dirFS : DirFS)
    (sanitize : String → String) (writeFails : String → Bool) (sync : SyncOutcome)
    (initFails : Bool) (interrupt : InterruptAt) (fs0 : List (String × String)) (d : String)
    (hd : args.obsidianDirectory = some d) (hne : d ≠ "")
    (hlib : args.libraryType = "user" ∨ args.libraryType = "group") :
    (dirFS.pathExists d = false → dirFS.mkdirFails d = false →
        (mainRun args r dirFS sanitize writeFails sync initFails interrupt fs0).mkdirs = [d])
    ∧ (dirFS.pathExists d = false → dirFS.mkdirFails d = true →
        (mainRun args r dirFS sanitize writeFails sync initFails interrupt fs0).exit
            = ExitKind.exited 1
        ∧ (mainRun args r dirFS sanitize writeFails sync initFails interrupt fs0).syncAttempted
            = false)
    ∧ (dirFS.pathExists d = true → dirFS.isDir d = false →
        (mainRun args r dirFS sanitize writeFails sync initFails interrupt fs0).exit
            = ExitKind.exited 1
        ∧ (mainRun args r dirFS sanitize writeFails sync initFails interrupt fs0).syncAttempted
            = false) := by
  have hdb : (d == "") = false := by simp [hne]
  have hbl : (args.libraryType == "user" || args.libraryType == "group") = true := by
    rcases hlib with h | h <;> simp [h]
  refine ⟨?_, ?_, ?_⟩
  · intro h1 h2
    have hv : validate_args args.libraryType args.obsidianDirectory dirFS
        = { mkdirs := [d], exited := none } := by
      unfold validate_args
      rw [hbl, hd]
      simp [hdb, h1, h2]
    rw [mainRun_mkdirs, hv]
  · intro h1 h2
    have hv : validate_args args.libraryType args.obsidianDirectory dirFS
        = { mkdirs := [], exited := some 1 } := by
      unfold validate_args
      rw [hbl, hd]
      simp [hdb, h1, h2]
    constructor <;> simp [mainRun, hv]
  · intro h1 h2
    have hv : validate_args args.libraryType args.obsidianDirectory dirFS
        = { mkdirs := [], exited := some 1 } := by
      unfold validate_args
      rw [hbl, hd]
      simp [hdb, h1, h2]
    constructor <;> simp [mainRun, hv]

def argsWithVault : Args :=
  { apiKey := some "K1", libraryId := some "L1", collectionKey := some "C1",
    libraryType := "user", obsidianDirectory := some "vault", dryRun := false,
    verbose := false }

theorem c8_witness :
    ((dirFSNothing.pathExists "vault" = false → dirFSNothing.mkdirFails "vault" = false →
        (mainRun argsWithVault responsesBasic dirFSNothing id noFail (SyncOutcome.ok [paperA])
            false InterruptAt.never []).mkdirs = ["vault"])
    ∧ (dirFSNothing.pathExists "vault" = false → dirFSNothing.mkdirFails "vault" = true →
        (mainRun argsWithVault responsesBasic dirFSNothing id noFail (SyncOutcome.ok [paperA])
            false InterruptAt.never []).exit = ExitKind.exited 1
        ∧ (mainRun argsWithVault responsesBasic dirFSNothing id noFail (SyncOutcome.ok [paperA])
            false InterruptAt.never []).syncAttempted = false)
    ∧ (dirFSNothing.pathExists "vault" = true → dirFSNothing.isDir "vault" = false →
        (mainRun argsWithVault responsesBasic dirFSNothing id noFail (SyncOutcome.ok [paperA])
            false InterruptAt.never []).exit = ExitKind.exited 1
        ∧ (mainRun argsWithVault responsesBasic dirFSNothing id noFail (SyncOutcome.ok [paperA])
            false InterruptAt.never []).syncAttempted = false)) :=
  c8_supplied_directory_validated argsWithVault responsesBasic dirFSNothing id noFail
    (SyncOutcome.ok [paperA]) false InterruptAt.never [] "vault" rfl (by decide) (Or.inl rfl)

/-- C10: a directory entered only at the interactive prompt is never validated
or created — validation ran before the prompt, on a `None` directory — so there
is no existence check, no creation attempt (`mkdirs = []` for every file
system) and no fatal configuration error; when every write to it fails (as
when the prompted directory does not exist), each record's failure is
non-fatal: the run completes normally (exit status 0) with nothing written,
nothing counted, and the file contents untouched. -/
theorem c10_prompted_directory_never_validated (args : Args) (r : PromptResponses)
    (dirFS : DirFS) (sanitize : String → String) (writeFails : String → Bool)
    (papers : List Paper) (fs0 : List (String × String)) (c2 : Creds)
    (hnone : args.obsidianDirectory = none)
    (hlib : args.libraryType = "user" ∨ args.libraryType = "group")
    (hok : get_interactive_input (credsOf args) r = Except.ok c2)
    (hdirNE : pyStrip r.obsidianDir ≠ "")
    (hdry : args.dryRun = false)
    (hw : ∀ path, writeFails path = true) :
    (mainRun args r dirFS sanitize writeFails (SyncOutcome.ok papers) false
        InterruptAt.never fs0).mkdirs = []
    ∧ (mainRun args r dirFS sanitize writeFails (SyncOutcome.ok papers) false
        InterruptAt.never fs0).exit = ExitKind.normal
    ∧ (mainRun args r dirFS sanitize writeFails (SyncOutcome.ok papers) false
        InterruptAt.never fs0).state.log = []
    ∧ (mainRun args r dirFS sanitize writeFails (SyncOutcome.ok papers) false
        InterruptAt.never fs0).state.fs = fs0
    ∧ (mainRun args r dirFS sanitize writeFails (SyncOutcome.ok papers) false
        InterruptAt.never fs0).state.processedCount = 0 := by
  have hv : validate_args args.libraryType args.obsidianDirectory dirFS
      = { mkdirs := [], exited := none } := by
    rw [hnone]
    exact validate_args_valid_none args.libraryType dirFS hlib
  have hc2dir : c2.obsidianDirectory = some (pyStrip r.obsidianDir) := by
    rw [get_interactive_input_ok_obsidianDirectory _ _ _ hok]
    simp [credsOf, hnone, optFalsy, hdirNE]
  obtain ⟨hl, hf, hc, he⟩ := process_papers_allFail sanitize writeFails papers
    (pyStrip r.obsidianDir) fs0 hdirNE hw
  refine ⟨?_, ?_, ?_, ?_, ?_⟩ <;>
    simp [mainRun, hv, hok, hdry, hc2dir, hl, hf, hc, he]

def responsesWithDir : PromptResponses :=
  { apiKey := "K1", libraryId := "L1", collectionKey := "C1", obsidianDir := "ghost" }

def allWritesFail : String → Bool := fun _ => true

theorem c10_witness :
    (mainRun argsAllSet responsesWithDir dirFSAllOk id allWritesFail
        (SyncOutcome.ok [paperA]) false InterruptAt.never []).mkdirs = []
    ∧ (mainRun argsAllSet responsesWithDir dirFSAllOk id allWritesFail
        (SyncOutcome.ok [paperA]) false InterruptAt.never []).exit = ExitKind.normal
    ∧ (mainRun argsAllSet responsesWithDir dirFSAllOk id allWritesFail
        (SyncOutcome.ok [paperA]) false InterruptAt.never []).state.log = []
    ∧ (mainRun argsAllSet responsesWithDir dirFSAllOk id allWritesFail
        (SyncOutcome.ok [paperA]) false InterruptAt.never []).state.fs = []
    ∧ (mainRun argsAllSet responsesWithDir dirFSAllOk id allWritesFail
        (SyncOutcome.ok [paperA]) false InterruptAt.never []).state.processedCount = 0 :=
  c10_prompted_directory_never_validated argsAllSet responsesWithDir dirFSAllOk id
    allWritesFail [paperA] [] _ rfl (Or.inl rfl) rfl (by decide) rfl (fun _ => rfl)
